import Mathlib

/-!
Verification development for the RemoteAuth JNI platform bridge
(`remoteauth_jni_android_platform.rs`): a shallow embedding of the
cross-boundary asynchronous correlation engine — platform/response handle
allocation, the per-platform pending-request table mapping response handles
to one-shot channel senders, the completion handlers `on_send_request_success`
/ `on_send_request_error`, and the inbound JNI dispatch entry points
`native_on_send_request_success` / `native_on_send_request_error`.

Modelling conventions:
* Byte payloads are `List Nat` (their content is opaque to this code).
* `i64` counters (`AtomicI64::fetch_add(1)`) are modelled as `Nat` states
  reduced mod 2^64, with issued values mapped to two's-complement `Int`
  via `i64ofNat`, so wraparound behaves as in the source.
* `HashMap` is modelled as an association list with first-match lookup,
  replace-on-insert and erase-on-remove, which agrees with `HashMap`
  observationally.
* The tokio one-shot-used `mpsc::channel(1)` is a record of an optional
  buffered value plus liveness flags for the sender and receiver halves.
* JNI calls that can fail for environmental reasons (type-signature parse,
  `attach_current_thread`/`byte_array_from_slice`, `convert_byte_array`)
  are modelled by boolean oracles in a `JniEnv` record, since their success
  is decided outside this code.
-/

namespace RemoteAuth

/-- Opaque binary payload bytes. -/
abbrev Bytes := List Nat

/-- Two's-complement reading of a 64-bit counter value: `AtomicI64` stores
`n mod 2^64`, interpreted as a signed integer. -/
def i64ofNat (n : Nat) : Int :=
  if n % 2 ^ 64 < 2 ^ 63 then ((n % 2 ^ 64 : Nat) : Int)
  else ((n % 2 ^ 64 : Nat) : Int) - 2 ^ 64

/-- First-match association-list lookup (observational model of
`HashMap::get`). -/
def alookup {κ α : Type} [DecidableEq κ] (k : κ) : List (κ × α) → Option α
  | [] => none
  | e :: rest => if e.1 = k then some e.2 else alookup k rest

/-- Remove every binding of key `k` (observational model of
`HashMap::remove`'s effect on the map). -/
def aerase {κ α : Type} [DecidableEq κ] (k : κ) : List (κ × α) → List (κ × α)
  | [] => []
  | e :: rest => if e.1 = k then aerase k rest else e :: aerase k rest

/-- Insert-or-replace a binding (observational model of `HashMap::insert`). -/
def ainsert {κ α : Type} [DecidableEq κ] (k : κ) (v : α) (l : List (κ × α)) :
    List (κ × α) :=
  (k, v) :: aerase k l

/-- State of one `mpsc::channel(1)` used as a one-shot completion channel:
the optional buffered value, and whether the sender / receiver halves are
still alive. -/
structure Chan where
  buf : Option Bytes
  txAlive : Bool
  rxAlive : Bool
  deriving DecidableEq, Repr

/-- A channel as freshly created by `mpsc::channel(1)`. -/
def Chan.fresh : Chan := ⟨none, true, true⟩

/-- Model of `tx.send(v).await`: succeeds (buffers the value) when the receiver is
alive; returns an error (leaving the channel unchanged) when the receiver
was dropped. The `Bool` reports success. -/
def Chan.send (c : Chan) (v : Bytes) : Chan × Bool :=
  if c.rxAlive then ({ c with buf := some v }, true) else (c, false)

/-- Dropping the sender half (explicit `drop(tx)` on the error path, or the
sender going out of scope at the end of the success path). -/
def Chan.dropTx (c : Chan) : Chan := { c with txAlive := false }

/-- Dropping the receiver half (the `send_request` caller abandoning the
call, or returning early with an error). -/
def Chan.dropRx (c : Chan) : Chan := { c with rxAlive := false }

/-- Environmental outcomes of the fallible JNI operations used by this
code; each flag tells whether the corresponding foreign-runtime operation
succeeds. -/
structure JniEnv where
  sigOk : Bool
  attachOk : Bool
  deriving DecidableEq, Repr

/-- State of one `JavaPlatform`: its process-wide handle, its response-handle
counter (`atomic_handle`, stored mod 2^64), and its pending-request table
`map_futures` mapping response handles to channel ids, together with the
store of live channels (`chans`, keyed by channel id) and a fresh-channel
counter. The channel store makes the sender in the table and the receiver
held by the suspended caller two halves of the same object. -/
structure PState where
  platform_handle : Int
  atomic_handle : Nat
  map_futures : List (Int × Nat)
  chans : List (Nat × Chan)
  nextChan : Nat
  deriving DecidableEq, Repr

/-- A `JavaPlatform` as built by `JavaPlatform::new`: empty pending-request
table, response counter at 0. -/
def freshPlatform (h : Int) : PState :=
  { platform_handle := h
    atomic_handle := 0
    map_futures := []
    chans := []
    nextChan := 0 }

/-- Update the channel store at channel id `cid`. -/
def setChan (cid : Nat) (c : Chan) (l : List (Nat × Chan)) :
    List (Nat × Chan) :=
  ainsert cid c l

/-- What a completion handler did, as observable to callers and logs. -/
inductive CompletionOutcome where
  /-- Entry found; the response bytes were buffered for the waiting caller. -/
  | deliveredValue : CompletionOutcome
  /-- Entry found but the receiver was dropped; the failed send was ignored. -/
  | sendDropped : CompletionOutcome
  /-- Entry found on the error path; the channel was closed without a value. -/
  | channelClosed : CompletionOutcome
  /-- No entry for the response handle; only a diagnostic is logged. -/
  | notFoundLogged : CompletionOutcome
  deriving DecidableEq, Repr

/-- Model of `JavaPlatform::on_send_request_success`: remove the table entry for
`response_handle`; if found, send the bytes (ignoring a failed send) and
drop the sender; otherwise only log. -/
def onSendRequestSuccess (p : PState) (response : Bytes)
    (response_handle : Int) : PState × CompletionOutcome :=
  match alookup response_handle p.map_futures with
  | some cid =>
    let map1 := aerase response_handle p.map_futures
    match alookup cid p.chans with
    | some c =>
      let sent := Chan.send c response
      let c2 := Chan.dropTx sent.1
      ({ p with map_futures := map1, chans := setChan cid c2 p.chans },
        if sent.2 then .deliveredValue else .sendDropped)
    | none => ({ p with map_futures := map1 }, .sendDropped)
  | none => (p, .notFoundLogged)

/-- Model of `JavaPlatform::on_send_request_error`: remove the table entry for
`response_handle`; if found, drop the sender without sending a value
(closing the channel); otherwise only log. The error code is only logged. -/
def onSendRequestError (p : PState) (error_code : Int)
    (response_handle : Int) : PState × CompletionOutcome :=
  match alookup response_handle p.map_futures with
  | some cid =>
    let map1 := aerase response_handle p.map_futures
    match alookup cid p.chans with
    | some c =>
      ({ p with map_futures := map1, chans := setChan cid (Chan.dropTx c) p.chans },
        .channelClosed)
    | none => ({ p with map_futures := map1 }, .channelClosed)
  | none => (p, .notFoundLogged)

/-- Synchronous result of the first phase of `JavaPlatform::send_request`
(everything before the `rx.recv().await` suspension point). -/
inductive StartResult where
  /-- Case `TypeSignature::from_str` failed: an error is returned before any
  handle is allocated or any table entry inserted. -/
  | errSig : StartResult
  /-- The `attach_current_thread`/`byte_array_from_slice` chain failed after
  the handle was allocated and the sender inserted: the error is returned
  via `?` before the suspension point. -/
  | errAttach (response_handle : Int) : StartResult
  /-- The foreign invocation was issued; the caller suspends on the receiver
  of channel `cid` awaiting the completion for `response_handle`. -/
  | suspended (response_handle : Int) (cid : Nat) : StartResult
  deriving DecidableEq, Repr

/-- Phase one of `JavaPlatform::send_request`: parse the method type
signature; allocate a fresh response handle from `atomic_handle`
(`fetch_add(1)` returns the old value); create a capacity-1 channel; insert
the sender into `map_futures`; invoke the foreign transport method
(fire-and-forget). A signature-parse failure returns before any of that; an
attach failure returns after the insert, dropping the receiver on the way
out and leaving the table entry in place. `connection_id` and `request` are
passed to the foreign side and have no effect on this state. -/
def sendRequestStart (env : JniEnv) (connection_id : Int) (request : Bytes)
    (p : PState) : PState × StartResult :=
  if env.sigOk then
    let response_handle := i64ofNat p.atomic_handle
    let cid := p.nextChan
    let p1 : PState :=
      { p with
        atomic_handle := (p.atomic_handle + 1) % 2 ^ 64
        map_futures := ainsert response_handle cid p.map_futures
        chans := ainsert cid Chan.fresh p.chans
        nextChan := cid + 1 }
    if env.attachOk then
      (p1, .suspended response_handle cid)
    else
      ({ p1 with chans := setChan cid (Chan.dropRx Chan.fresh) p1.chans },
        .errAttach response_handle)
  else
    (p, .errSig)

/-- Phase two of `JavaPlatform::send_request`: the resumption
`rx.recv().await.ok_or(...)` read against the state of the caller's channel.
`none` means the receive has not completed (the caller is still suspended);
`some (Except.ok v)` means the call resolves with the delivered bytes;
`some (Except.error _)` means the channel closed without a value and the
call resolves with the awaiting failure. -/
def sendRequestResume (c : Chan) : Option (Except String Bytes) :=
  match c.buf with
  | some v => some (Except.ok v)
  | none =>
    if c.txAlive then none
    else some (Except.error "send_request failed in awaiting for a result")

/-- The global platform-handle counter `HANDLE_RN` (`AtomicI64`, starting
at 0): `generate_platform_handle` returns the old value and stores the
incremented one, wrapping as an `i64`. The state is the stored counter
reduced mod 2^64. -/
def generate_platform_handle (s : Nat) : Int × Nat :=
  (i64ofNat s, (s + 1) % 2 ^ 64)

/-- Counter state of `HANDLE_RN` after `k` allocations from process start. -/
def allocAfter : Nat → Nat
  | 0 => 0
  | k + 1 => (generate_platform_handle (allocAfter k)).2

/-- The platform handle issued by the `(k+1)`-st call to
`generate_platform_handle` from process start (0-indexed). -/
def nthPlatformHandle (k : Nat) : Int :=
  (generate_platform_handle (allocAfter k)).1

/-- Iterate phase one of `send_request` `k` times on one platform
(modelling a sequence of calls on the same `JavaPlatform`). -/
def sendIter (env : JniEnv) (connection_id : Int) (request : Bytes) :
    Nat → PState → PState
  | 0, p => p
  | k + 1, p =>
    sendIter env connection_id request k
      (sendRequestStart env connection_id request p).1

/-- The response handle allocated by a phase-one result, when one was
allocated. -/
def startHandle : StartResult → Option Int
  | .errSig => none
  | .errAttach h => some h
  | .suspended h _ => some h

/-- The response handle issued by the `(k+1)`-st `send_request` call on a
platform (0-indexed), defaulting to 0 on the no-allocation path. -/
def nthResponseHandle (env : JniEnv) (connection_id : Int) (request : Bytes)
    (p : PState) (k : Nat) : Int :=
  (startHandle
    (sendRequestStart env connection_id request
      (sendIter env connection_id request k p)).2).getD 0

/-- Outcome of an inbound JNI dispatch entry point, as observable at the
boundary. -/
inductive DispatchOutcome where
  /-- The platform was resolved and the completion handler ran with the
  given outcome. -/
  | delegated (co : CompletionOutcome) : DispatchOutcome
  /-- The platform handle was unknown: a
  `com.android.server.remoteauth.jni.BadHandleException` is thrown back to
  the foreign runtime. -/
  | badHandleException : DispatchOutcome
  /-- The process panicked (an `unwrap` on a failed operation). -/
  | panicked : DispatchOutcome
  deriving DecidableEq, Repr

/-- The process-wide `HANDLE_MAPPING` registry from platform handle to
platform state. -/
abbrev Registry := List (Int × PState)

/-- Model of `insert_platform_handle`: registry insert (the handle-0 logger
initialization is a diagnostic side effect with no registry state). -/
def insert_platform_handle (handle : Int) (item : PState) (reg : Registry) :
    Registry :=
  ainsert handle item reg

/-- Model of `native_on_send_request_success`: resolve `platform_handle` in
`HANDLE_MAPPING`; if found, convert the response byte array — panicking via
`unwrap()` when the conversion fails — and delegate to
`on_send_request_success`; if not found, throw `BadHandleException`.
`convertOk` is the environmental success of `env.convert_byte_array`. -/
def native_on_send_request_success (convertOk : Bool) (reg : Registry)
    (app_response : Bytes) (platform_handle response_handle : Int) :
    Registry × DispatchOutcome :=
  match alookup platform_handle reg with
  | some p =>
    if convertOk then
      let r := onSendRequestSuccess p app_response response_handle
      (ainsert platform_handle r.1 reg, .delegated r.2)
    else (reg, .panicked)
  | none => (reg, .badHandleException)

/-- Model of `native_on_send_request_error`: resolve `platform_handle` in
`HANDLE_MAPPING`; if found, delegate to `on_send_request_error`; if not
found, throw `BadHandleException`. -/
def native_on_send_request_error (reg : Registry) (error_code : Int)
    (platform_handle response_handle : Int) : Registry × DispatchOutcome :=
  match alookup platform_handle reg with
  | some p =>
    let r := onSendRequestError p error_code response_handle
    (ainsert platform_handle r.1 reg, .delegated r.2)
  | none => (reg, .badHandleException)

/-- Model of the `extern "system"` JNI entry point
`Java_com_android_server_remoteauth_jni_NativeRemoteAuthJavaPlatform_native_on_send_request_success`:
after the debug log it runs `Runtime::new().unwrap()` — panicking when
tokio runtime creation fails — and only then `block_on`s the async
`native_on_send_request_success`. `runtimeOk` is the environmental success
of `Runtime::new()`. -/
def Java_NativeRemoteAuthJavaPlatform_native_on_send_request_success
    (runtimeOk convertOk : Bool) (reg : Registry) (app_response : Bytes)
    (platform_handle response_handle : Int) : Registry × DispatchOutcome :=
  if runtimeOk then
    native_on_send_request_success convertOk reg app_response platform_handle
      response_handle
  else (reg, .panicked)

/-- Model of the `extern "system"` JNI entry point
`Java_com_android_server_remoteauth_jni_NativeRemoteAuthJavaPlatform_native_on_send_request_error`:
after the debug log it runs `Runtime::new().unwrap()` — panicking when
tokio runtime creation fails — and only then `block_on`s the async
`native_on_send_request_error`. -/
def Java_NativeRemoteAuthJavaPlatform_native_on_send_request_error
    (runtimeOk : Bool) (reg : Registry) (error_code : Int)
    (platform_handle response_handle : Int) : Registry × DispatchOutcome :=
  if runtimeOk then
    native_on_send_request_error reg error_code platform_handle
      response_handle
  else (reg, .panicked)

/-! ### Association-list lemmas -/

theorem alookup_ainsert_self {κ α : Type} [DecidableEq κ] (k : κ) (v : α)
    (l : List (κ × α)) : alookup k (ainsert k v l) = some v := by
  simp [ainsert, alookup]

theorem alookup_aerase_self {κ α : Type} [DecidableEq κ] (k : κ)
    (l : List (κ × α)) : alookup k (aerase k l) = none := by
  induction l with
  | nil => rfl
  | cons e rest ih =>
    by_cases he : e.1 = k
    · simpa [aerase, alookup, he] using ih
    · simpa [aerase, alookup, he] using ih

theorem alookup_aerase_ne {κ α : Type} [DecidableEq κ] {k k' : κ}
    (hne : k' ≠ k) (l : List (κ × α)) :
    alookup k' (aerase k l) = alookup k' l := by
  induction l with
  | nil => rfl
  | cons e rest ih =>
    by_cases he : e.1 = k
    · have hek' : e.1 ≠ k' := fun h => hne (h ▸ he.symm ▸ rfl)
      have hkk' : ¬(k = k') := fun h => hne h.symm
      simp [aerase, alookup, he, hek', ih, hkk']
    · simp only [aerase, he, if_false, alookup, ih]

theorem alookup_ainsert_ne {κ α : Type} [DecidableEq κ] {k k' : κ}
    (hne : k' ≠ k) (v : α) (l : List (κ × α)) :
    alookup k' (ainsert k v l) = alookup k' l := by
  have : k ≠ k' := fun h => hne h.symm
  simp only [ainsert, alookup, this, if_false]
  exact alookup_aerase_ne hne l

theorem alookup_mem {κ α : Type} [DecidableEq κ] {k : κ} {v : α}
    {l : List (κ × α)} (h : alookup k l = some v) : (k, v) ∈ l := by
  induction l with
  | nil => simp [alookup] at h
  | cons e rest ih =>
    by_cases he : e.1 = k
    · simp only [alookup, he, if_true, Option.some.injEq] at h
      have : e = (k, v) := by
        cases e
        simp_all
      exact this ▸ List.mem_cons_self _ _
    · simp only [alookup, he, if_false] at h
      exact List.mem_cons_of_mem _ (ih h)

/-- Well-formedness of a pending-request table: the channel ids stored as
values are pairwise distinct (each `send_request` call creates its own
fresh channel). -/
def WFvals (m : List (Int × Nat)) : Prop :=
  m.Pairwise (fun a b => a.2 ≠ b.2)

instance (m : List (Int × Nat)) : Decidable (WFvals m) := by
  unfold WFvals
  infer_instance

theorem alookup_WFvals_inj {m : List (Int × Nat)} {h h' : Int} {c : Nat}
    (hw : WFvals m) (h1 : alookup h m = some c) (h2 : alookup h' m = some c) :
    h = h' := by
  induction m with
  | nil => simp [alookup] at h1
  | cons e rest ih =>
    rw [WFvals, List.pairwise_cons] at hw
    by_cases he : e.1 = h
    · by_cases he' : e.1 = h'
      · omega
      · simp only [alookup, he, if_true, Option.some.injEq] at h1
        simp only [alookup, he', if_false] at h2
        exact absurd h1 (hw.1 _ (alookup_mem h2))
    · by_cases he' : e.1 = h'
      · simp only [alookup, he, if_false] at h1
        simp only [alookup, he', if_true, Option.some.injEq] at h2
        exact absurd h2 (hw.1 _ (alookup_mem h1))
      · simp only [alookup, he, if_false] at h1
        simp only [alookup, he', if_false] at h2
        exact ih hw.2 h1 h2

/-! ### Counter and wraparound lemmas -/

theorem two_pow_64_eq : (2 : Nat) ^ 64 = 18446744073709551616 := by norm_num

theorem i64ofNat_mod (n : Nat) : i64ofNat (n % 2 ^ 64) = i64ofNat n := by
  unfold i64ofNat
  rw [Nat.mod_mod_of_dvd _ (dvd_refl _)]

theorem i64ofNat_of_lt {n : Nat} (h : n < 2 ^ 63) : i64ofNat n = (n : Int) := by
  have h63 : (2 : Nat) ^ 63 = 9223372036854775808 := by norm_num
  have h' : n < 9223372036854775808 := h63 ▸ h
  have h64 : n < 2 ^ 64 := by
    rw [two_pow_64_eq]
    omega
  unfold i64ofNat
  rw [Nat.mod_eq_of_lt h64, if_pos h]

theorem i64ofNat_strictMono {i j : Nat} (hij : i < j) (hj : j < 2 ^ 63) :
    i64ofNat i < i64ofNat j := by
  rw [i64ofNat_of_lt (lt_trans hij hj), i64ofNat_of_lt hj]
  exact_mod_cast hij

theorem allocAfter_eq (k : Nat) : allocAfter k = k % 2 ^ 64 := by
  induction k with
  | zero =>
    simp [allocAfter]
  | succ k ih =>
    simp only [allocAfter, generate_platform_handle, ih]
    rw [two_pow_64_eq]
    omega

theorem nthPlatformHandle_eq (k : Nat) : nthPlatformHandle k = i64ofNat k := by
  unfold nthPlatformHandle generate_platform_handle
  rw [allocAfter_eq]
  exact i64ofNat_mod k

theorem sendRequestStart_atomic {env : JniEnv} (conn : Int) (req : Bytes)
    (p : PState) (hsig : env.sigOk = true) :
    (sendRequestStart env conn req p).1.atomic_handle =
      (p.atomic_handle + 1) % 2 ^ 64 := by
  simp only [sendRequestStart, hsig, if_true]
  by_cases h : env.attachOk <;> simp [h]

theorem sendRequestStart_startHandle {env : JniEnv} (conn : Int) (req : Bytes)
    (p : PState) (hsig : env.sigOk = true) :
    startHandle (sendRequestStart env conn req p).2 =
      some (i64ofNat p.atomic_handle) := by
  simp only [sendRequestStart, hsig, if_true]
  by_cases h : env.attachOk <;> simp [h, startHandle]

theorem sendIter_atomic {env : JniEnv} (conn : Int) (req : Bytes)
    (hsig : env.sigOk = true) (k : Nat) :
    ∀ p : PState, p.atomic_handle < 2 ^ 64 →
      (sendIter env conn req k p).atomic_handle =
        (p.atomic_handle + k) % 2 ^ 64 := by
  induction k with
  | zero =>
    intro p hp
    simp only [sendIter]
    exact (Nat.mod_eq_of_lt (by omega)).symm
  | succ k ih =>
    intro p hp
    simp only [sendIter]
    rw [ih _ (by
      rw [sendRequestStart_atomic conn req p hsig]
      exact Nat.mod_lt _ (by rw [two_pow_64_eq]; omega))]
    rw [sendRequestStart_atomic conn req p hsig]
    rw [two_pow_64_eq]
    omega

theorem nthResponseHandle_eq {env : JniEnv} (conn : Int) (req : Bytes)
    (ph : Int) (k : Nat) (hsig : env.sigOk = true) :
    nthResponseHandle env conn req (freshPlatform ph) k = i64ofNat k := by
  unfold nthResponseHandle
  rw [sendRequestStart_startHandle conn req _ hsig]
  rw [sendIter_atomic conn req hsig k (freshPlatform ph)
    (by simp [freshPlatform])]
  simp only [freshPlatform, Nat.zero_add, Option.getD_some]
  exact i64ofNat_mod k

/-! ### Inversion and small-step lemmas for the completion handlers -/

theorem sendRequestStart_suspended {env : JniEnv} {conn : Int} {req : Bytes}
    {p : PState} {h : Int} {cid : Nat}
    (hs : (sendRequestStart env conn req p).2 = .suspended h cid) :
    h = i64ofNat p.atomic_handle ∧ cid = p.nextChan ∧
    alookup h (sendRequestStart env conn req p).1.map_futures = some cid ∧
    alookup cid (sendRequestStart env conn req p).1.chans = some Chan.fresh := by
  by_cases hsig : env.sigOk
  · by_cases hatt : env.attachOk
    · simp only [sendRequestStart, hsig, hatt, if_true] at hs ⊢
      obtain ⟨rfl, rfl⟩ : h = i64ofNat p.atomic_handle ∧ cid = p.nextChan := by
        cases hs
        exact ⟨rfl, rfl⟩
      exact ⟨rfl, rfl, alookup_ainsert_self _ _ _, alookup_ainsert_self _ _ _⟩
    · simp [sendRequestStart, hsig, hatt] at hs
  · simp [sendRequestStart, hsig] at hs

theorem onSuccess_removes {p : PState} {bytes : Bytes} {h : Int} {cid : Nat}
    (hm : alookup h p.map_futures = some cid) :
    alookup h (onSendRequestSuccess p bytes h).1.map_futures = none := by
  simp only [onSendRequestSuccess, hm]
  cases hch : alookup cid p.chans <;> simp [alookup_aerase_self]

theorem onError_removes {p : PState} {code h : Int} {cid : Nat}
    (hm : alookup h p.map_futures = some cid) :
    alookup h (onSendRequestError p code h).1.map_futures = none := by
  simp only [onSendRequestError, hm]
  cases hch : alookup cid p.chans <;> simp [alookup_aerase_self]

theorem onSuccess_notFound {p : PState} {bytes : Bytes} {h : Int}
    (hnone : alookup h p.map_futures = none) :
    onSendRequestSuccess p bytes h = (p, .notFoundLogged) := by
  simp [onSendRequestSuccess, hnone]

theorem onError_notFound {p : PState} {code h : Int}
    (hnone : alookup h p.map_futures = none) :
    onSendRequestError p code h = (p, .notFoundLogged) := by
  simp [onSendRequestError, hnone]

/-! ### Claim theorems -/

/-- C1: if `on_success(bytes, h)` is delivered while the entry registered by
a `send_request` call (suspended as `.suspended h cid`) is pending, that
call resolves successfully and its result is exactly the delivered bytes:
the handler reports delivery, removes the entry, and the caller's channel
resumes with `Except.ok bytes`. -/
theorem send_request_resolves_with_delivered_bytes (env : JniEnv)
    (conn : Int) (req : Bytes) (p : PState) (bytes : Bytes) (h : Int)
    (cid : Nat)
    (hs : (sendRequestStart env conn req p).2 = .suspended h cid) :
    (onSendRequestSuccess (sendRequestStart env conn req p).1 bytes h).2 =
      .deliveredValue ∧
    alookup h
      (onSendRequestSuccess (sendRequestStart env conn req p).1 bytes
        h).1.map_futures = none ∧
    ∃ c : Chan,
      alookup cid
        (onSendRequestSuccess (sendRequestStart env conn req p).1 bytes
          h).1.chans = some c ∧
      sendRequestResume c = some (Except.ok bytes) := by
  obtain ⟨-, -, hm, hc⟩ := sendRequestStart_suspended hs
  refine ⟨?_, onSuccess_removes hm, ?_⟩
  · simp [onSendRequestSuccess, hm, hc, Chan.send, Chan.fresh, Chan.dropTx]
  · refine ⟨⟨some bytes, false, true⟩, ?_, rfl⟩
    simp only [onSendRequestSuccess, hm, hc, Chan.send, Chan.fresh,
      Chan.dropTx, if_true, setChan]
    exact alookup_ainsert_self _ _ _

/-- C1 witness: the spec scenario — platform handle 7 sends `"ping"` on
connection 3, gets response handle 0, and `on_success("pong", 0)` resolves
the call with `"pong"`. -/
theorem send_request_resolves_with_delivered_bytes_witness :
    (onSendRequestSuccess
      (sendRequestStart ⟨true, true⟩ 3 [112, 105, 110, 103]
        (freshPlatform 7)).1 [112, 111, 110, 103] 0).2 =
      CompletionOutcome.deliveredValue ∧
    alookup 0
      (onSendRequestSuccess
        (sendRequestStart ⟨true, true⟩ 3 [112, 105, 110, 103]
          (freshPlatform 7)).1 [112, 111, 110, 103] 0).1.map_futures =
      none ∧
    ∃ c : Chan,
      alookup 0
        (onSendRequestSuccess
          (sendRequestStart ⟨true, true⟩ 3 [112, 105, 110, 103]
            (freshPlatform 7)).1 [112, 111, 110, 103] 0).1.chans = some c ∧
      sendRequestResume c = some (Except.ok [112, 111, 110, 103]) :=
  send_request_resolves_with_delivered_bytes ⟨true, true⟩ 3
    [112, 105, 110, 103] (freshPlatform 7) [112, 111, 110, 103] 0 0
    (by decide)

/-- C2: delivering `on_error(code, h)` for a pending `h` removes the table
entry and closes the channel without a value, so the awaiting `send_request`
call resolves with the awaiting-failure error — it neither hangs (the
resumption is `some _`, not `none`) nor receives bytes. -/
theorem on_error_resolves_awaiting_failure (env : JniEnv) (conn : Int)
    (req : Bytes) (p : PState) (code h : Int) (cid : Nat)
    (hs : (sendRequestStart env conn req p).2 = .suspended h cid) :
    (onSendRequestError (sendRequestStart env conn req p).1 code h).2 =
      .channelClosed ∧
    alookup h
      (onSendRequestError (sendRequestStart env conn req p).1 code
        h).1.map_futures = none ∧
    ∃ c : Chan,
      alookup cid
        (onSendRequestError (sendRequestStart env conn req p).1 code
          h).1.chans = some c ∧
      sendRequestResume c =
        some (Except.error "send_request failed in awaiting for a result") := by
  obtain ⟨-, -, hm, hc⟩ := sendRequestStart_suspended hs
  refine ⟨?_, onError_removes hm, ?_⟩
  · simp [onSendRequestError, hm, hc]
  · refine ⟨⟨none, false, true⟩, ?_, rfl⟩
    simp only [onSendRequestError, hm, hc, Chan.dropTx, Chan.fresh, setChan]
    exact alookup_ainsert_self _ _ _

/-- C2 witness: the spec scenario — platform handle 7, response handle 0,
`on_error(42, 0)` resolves the call with the awaiting failure. -/
theorem on_error_resolves_awaiting_failure_witness :
    (onSendRequestError
      (sendRequestStart ⟨true, true⟩ 3 [112, 105, 110, 103]
        (freshPlatform 7)).1 42 0).2 = CompletionOutcome.channelClosed ∧
    alookup 0
      (onSendRequestError
        (sendRequestStart ⟨true, true⟩ 3 [112, 105, 110, 103]
          (freshPlatform 7)).1 42 0).1.map_futures = none ∧
    ∃ c : Chan,
      alookup 0
        (onSendRequestError
          (sendRequestStart ⟨true, true⟩ 3 [112, 105, 110, 103]
            (freshPlatform 7)).1 42 0).1.chans = some c ∧
      sendRequestResume c =
        some (Except.error "send_request failed in awaiting for a result") :=
  on_error_resolves_awaiting_failure ⟨true, true⟩ 3 [112, 105, 110, 103]
    (freshPlatform 7) 42 0 0 (by decide)

/-- C3: after a first completion (success or error) has consumed the entry
for `h`, any second completion (success or error) for `h` finds no entry,
returns the platform state entirely unchanged, and reports only the
diagnostic `notFoundLogged` — the handlers are idempotent against duplicate
delivery. -/
theorem duplicate_completion_is_noop (p : PState) (bytes bytes2 : Bytes)
    (code code2 h : Int) (cid : Nat)
    (hm : alookup h p.map_futures = some cid) :
    (onSendRequestSuccess (onSendRequestSuccess p bytes h).1 bytes2 h =
        ((onSendRequestSuccess p bytes h).1, .notFoundLogged) ∧
      onSendRequestError (onSendRequestSuccess p bytes h).1 code2 h =
        ((onSendRequestSuccess p bytes h).1, .notFoundLogged)) ∧
    (onSendRequestSuccess (onSendRequestError p code h).1 bytes2 h =
        ((onSendRequestError p code h).1, .notFoundLogged) ∧
      onSendRequestError (onSendRequestError p code h).1 code2 h =
        ((onSendRequestError p code h).1, .notFoundLogged)) :=
  ⟨⟨onSuccess_notFound (onSuccess_removes hm),
    onError_notFound (onSuccess_removes hm)⟩,
   ⟨onSuccess_notFound (onError_removes hm),
    onError_notFound (onError_removes hm)⟩⟩

/-- C3 witness: duplicate completions for response handle 0 on a platform
with one pending entry are no-ops beyond the diagnostic. -/
theorem duplicate_completion_is_noop_witness :
    (onSendRequestSuccess
        (onSendRequestSuccess
          { platform_handle := 7, atomic_handle := 1,
            map_futures := [(0, 0)], chans := [(0, Chan.fresh)],
            nextChan := 1 } [2] 0).1 [3] 0 =
      ((onSendRequestSuccess
          { platform_handle := 7, atomic_handle := 1,
            map_futures := [(0, 0)], chans := [(0, Chan.fresh)],
            nextChan := 1 } [2] 0).1, .notFoundLogged) ∧
      onSendRequestError
        (onSendRequestSuccess
          { platform_handle := 7, atomic_handle := 1,
            map_futures := [(0, 0)], chans := [(0, Chan.fresh)],
            nextChan := 1 } [2] 0).1 9 0 =
      ((onSendRequestSuccess
          { platform_handle := 7, atomic_handle := 1,
            map_futures := [(0, 0)], chans := [(0, Chan.fresh)],
            nextChan := 1 } [2] 0).1, .notFoundLogged)) ∧
    (onSendRequestSuccess
        (onSendRequestError
          { platform_handle := 7, atomic_handle := 1,
            map_futures := [(0, 0)], chans := [(0, Chan.fresh)],
            nextChan := 1 } 42 0).1 [3] 0 =
      ((onSendRequestError
          { platform_handle := 7, atomic_handle := 1,
            map_futures := [(0, 0)], chans := [(0, Chan.fresh)],
            nextChan := 1 } 42 0).1, .notFoundLogged) ∧
      onSendRequestError
        (onSendRequestError
          { platform_handle := 7, atomic_handle := 1,
            map_futures := [(0, 0)], chans := [(0, Chan.fresh)],
            nextChan := 1 } 42 0).1 9 0 =
      ((onSendRequestError
          { platform_handle := 7, atomic_handle := 1,
            map_futures := [(0, 0)], chans := [(0, Chan.fresh)],
            nextChan := 1 } 42 0).1, .notFoundLogged)) :=
  duplicate_completion_is_noop _ [2] [3] 42 9 0 0 (by decide)

/-! ### The channel-id well-formedness invariant -/

theorem aerase_sublist {κ α : Type} [DecidableEq κ] (k : κ)
    (l : List (κ × α)) : (aerase k l).Sublist l := by
  induction l with
  | nil => exact List.Sublist.refl _
  | cons e rest ih =>
    by_cases he : e.1 = k
    · simpa [aerase, he] using ih.cons e
    · simpa [aerase, he] using ih.cons₂ e

theorem WFvals_aerase {m : List (Int × Nat)} (k : Int) (hw : WFvals m) :
    WFvals (aerase k m) :=
  List.Pairwise.sublist (aerase_sublist k m) hw

/-- Global well-formedness of a platform's pending-request table: channel
ids are pairwise distinct and bounded by the fresh-channel counter. It
holds for a fresh platform and is preserved by `send_request` registration
and by both completion handlers. -/
def WFtable (p : PState) : Prop :=
  WFvals p.map_futures ∧ ∀ e ∈ p.map_futures, e.2 < p.nextChan

theorem WFtable_fresh (h : Int) : WFtable (freshPlatform h) := by
  constructor
  · exact List.Pairwise.nil
  · intro e he
    simp [freshPlatform] at he

theorem WFtable_sendRequestStart (env : JniEnv) (conn : Int) (req : Bytes)
    (p : PState) (hw : WFtable p) :
    WFtable (sendRequestStart env conn req p).1 := by
  obtain ⟨hv, hb⟩ := hw
  by_cases hsig : env.sigOk
  · have hmain :
        WFvals (ainsert (i64ofNat p.atomic_handle) p.nextChan p.map_futures) ∧
        ∀ e ∈ ainsert (i64ofNat p.atomic_handle) p.nextChan p.map_futures,
          e.2 < p.nextChan + 1 := by
      constructor
      · refine List.pairwise_cons.2 ⟨?_, WFvals_aerase _ hv⟩
        intro e he
        have : e ∈ p.map_futures := (aerase_sublist _ _).subset he
        have := hb e this
        omega
      · intro e he
        rcases List.mem_cons.1 he with rfl | he
        · omega
        · have : e ∈ p.map_futures := (aerase_sublist _ _).subset he
          have := hb e this
          omega
    by_cases hatt : env.attachOk
    · unfold sendRequestStart
      rw [if_pos hsig, if_pos hatt]
      exact ⟨hmain.1, hmain.2⟩
    · unfold sendRequestStart
      rw [if_pos hsig, if_neg hatt]
      exact ⟨hmain.1, hmain.2⟩
  · unfold sendRequestStart
    rw [if_neg hsig]
    exact ⟨hv, hb⟩

theorem onSuccess_table_shape (p : PState) (bytes : Bytes) (h : Int) :
    (onSendRequestSuccess p bytes h).1.nextChan = p.nextChan ∧
    ((onSendRequestSuccess p bytes h).1.map_futures = p.map_futures ∨
      (onSendRequestSuccess p bytes h).1.map_futures =
        aerase h p.map_futures) := by
  cases hm : alookup h p.map_futures with
  | none => simp [onSendRequestSuccess, hm]
  | some cid =>
    cases hch : alookup cid p.chans with
    | none => simp [onSendRequestSuccess, hm, hch]
    | some c => simp [onSendRequestSuccess, hm, hch]

theorem onError_table_shape (p : PState) (code h : Int) :
    (onSendRequestError p code h).1.nextChan = p.nextChan ∧
    ((onSendRequestError p code h).1.map_futures = p.map_futures ∨
      (onSendRequestError p code h).1.map_futures =
        aerase h p.map_futures) := by
  cases hm : alookup h p.map_futures with
  | none => simp [onSendRequestError, hm]
  | some cid =>
    cases hch : alookup cid p.chans with
    | none => simp [onSendRequestError, hm, hch]
    | some c => simp [onSendRequestError, hm, hch]

theorem WFtable_onSuccess (p : PState) (bytes : Bytes) (h : Int)
    (hw : WFtable p) : WFtable (onSendRequestSuccess p bytes h).1 := by
  obtain ⟨hv, hb⟩ := hw
  obtain ⟨hn, hm⟩ := onSuccess_table_shape p bytes h
  refine ⟨?_, ?_⟩
  · rcases hm with hm | hm
    · rw [hm]; exact hv
    · rw [hm]; exact WFvals_aerase _ hv
  · intro e he
    rw [hn]
    rcases hm with hm | hm
    · rw [hm] at he; exact hb e he
    · rw [hm] at he; exact hb e ((aerase_sublist _ _).subset he)

theorem WFtable_onError (p : PState) (code h : Int) (hw : WFtable p) :
    WFtable (onSendRequestError p code h).1 := by
  obtain ⟨hv, hb⟩ := hw
  obtain ⟨hn, hm⟩ := onError_table_shape p code h
  refine ⟨?_, ?_⟩
  · rcases hm with hm | hm
    · rw [hm]; exact hv
    · rw [hm]; exact WFvals_aerase _ hv
  · intro e he
    rw [hn]
    rcases hm with hm | hm
    · rw [hm] at he; exact hb e he
    · rw [hm] at he; exact hb e ((aerase_sublist _ _).subset he)

/-- C5: a completion for response handle `h` removes exactly the entry keyed
`h` and leaves every other pending entry and its channel untouched: with
pairwise-distinct channel ids in the table, after `on_success`/`on_error`
for `h`, any other pending handle `h'` still maps to its own channel id and
that channel's state is unchanged — so concurrent callers never receive
another call's completion. -/
theorem completion_affects_only_its_entry (p : PState) (bytes : Bytes)
    (code h h' : Int) (cid cid' : Nat) (hw : WFvals p.map_futures)
    (hne : h' ≠ h) (hm : alookup h p.map_futures = some cid)
    (hm' : alookup h' p.map_futures = some cid') :
    (alookup h (onSendRequestSuccess p bytes h).1.map_futures = none ∧
      alookup h' (onSendRequestSuccess p bytes h).1.map_futures = some cid' ∧
      alookup cid' (onSendRequestSuccess p bytes h).1.chans =
        alookup cid' p.chans) ∧
    (alookup h (onSendRequestError p code h).1.map_futures = none ∧
      alookup h' (onSendRequestError p code h).1.map_futures = some cid' ∧
      alookup cid' (onSendRequestError p code h).1.chans =
        alookup cid' p.chans) := by
  have hcc : cid' ≠ cid := by
    intro e
    exact hne (alookup_WFvals_inj hw (e ▸ hm') hm)
  refine ⟨⟨onSuccess_removes hm, ?_, ?_⟩, ⟨onError_removes hm, ?_, ?_⟩⟩
  · simp only [onSendRequestSuccess, hm]
    cases hch : alookup cid p.chans <;>
      simp [alookup_aerase_ne hne, hm']
  · simp only [onSendRequestSuccess, hm]
    cases hch : alookup cid p.chans <;>
      simp [setChan, alookup_ainsert_ne hcc]
  · simp only [onSendRequestError, hm]
    cases hch : alookup cid p.chans <;>
      simp [alookup_aerase_ne hne, hm']
  · simp only [onSendRequestError, hm]
    cases hch : alookup cid p.chans <;>
      simp [setChan, alookup_ainsert_ne hcc]

/-- C5 witness: with two pending entries (handles 0 and 1 on their own
channels), completing handle 0 leaves handle 1's entry and channel
untouched. -/
theorem completion_affects_only_its_entry_witness :
    (alookup 0
        (onSendRequestSuccess
          { platform_handle := 7, atomic_handle := 2,
            map_futures := [(0, 0), (1, 1)],
            chans := [(0, Chan.fresh), (1, Chan.fresh)], nextChan := 2 }
          [2] 0).1.map_futures = none ∧
      alookup 1
        (onSendRequestSuccess
          { platform_handle := 7, atomic_handle := 2,
            map_futures := [(0, 0), (1, 1)],
            chans := [(0, Chan.fresh), (1, Chan.fresh)], nextChan := 2 }
          [2] 0).1.map_futures = some 1 ∧
      alookup 1
        (onSendRequestSuccess
          { platform_handle := 7, atomic_handle := 2,
            map_futures := [(0, 0), (1, 1)],
            chans := [(0, Chan.fresh), (1, Chan.fresh)], nextChan := 2 }
          [2] 0).1.chans =
        alookup 1
          ({ platform_handle := 7, atomic_handle := 2,
             map_futures := [(0, 0), (1, 1)],
             chans := [(0, Chan.fresh), (1, Chan.fresh)],
             nextChan := 2 } : PState).chans) ∧
    (alookup 0
        (onSendRequestError
          { platform_handle := 7, atomic_handle := 2,
            map_futures := [(0, 0), (1, 1)],
            chans := [(0, Chan.fresh), (1, Chan.fresh)], nextChan := 2 }
          42 0).1.map_futures = none ∧
      alookup 1
        (onSendRequestError
          { platform_handle := 7, atomic_handle := 2,
            map_futures := [(0, 0), (1, 1)],
            chans := [(0, Chan.fresh), (1, Chan.fresh)], nextChan := 2 }
          42 0).1.map_futures = some 1 ∧
      alookup 1
        (onSendRequestError
          { platform_handle := 7, atomic_handle := 2,
            map_futures := [(0, 0), (1, 1)],
            chans := [(0, Chan.fresh), (1, Chan.fresh)], nextChan := 2 }
          42 0).1.chans =
        alookup 1
          ({ platform_handle := 7, atomic_handle := 2,
             map_futures := [(0, 0), (1, 1)],
             chans := [(0, Chan.fresh), (1, Chan.fresh)],
             nextChan := 2 } : PState).chans) :=
  completion_affects_only_its_entry _ [2] 42 0 1 0 1 (by decide) (by decide)
    (by decide) (by decide)

/-- C4 counterexample: the handle allocator is an `AtomicI64` that wraps.
The platform handle issued at allocation 2^63 is smaller than the one
issued at allocation 2^63 − 1 (monotonicity fails at the sign wrap), and
the handle issued at allocation 2^64 equals the very first handle (a value
is reused), so the claim as stated — distinct and increasing for every
sequence of creations — is false. -/
theorem handle_allocator_wraps :
    ((2 : Nat) ^ 63 - 1 < 2 ^ 63 ∧
      nthPlatformHandle (2 ^ 63) < nthPlatformHandle (2 ^ 63 - 1)) ∧
    ((0 : Nat) ≠ 2 ^ 64 ∧
      nthPlatformHandle (2 ^ 64) = nthPlatformHandle 0) := by
  rw [nthPlatformHandle_eq, nthPlatformHandle_eq, nthPlatformHandle_eq,
    nthPlatformHandle_eq]
  exact ⟨⟨by norm_num, by decide⟩, ⟨by norm_num, by decide⟩⟩

/-- C4 (amended): as long as fewer than 2^63 handles have been issued, the
platform handles issued process-wide by `generate_platform_handle` and the
response handles issued by successive `send_request` calls on one fresh
platform are strictly increasing and pairwise distinct. -/
theorem handles_strictly_increasing (i j : Nat) (env : JniEnv) (conn : Int)
    (req : Bytes) (ph : Int) (hij : i < j) (hj : j < 2 ^ 63)
    (hsig : env.sigOk = true) :
    (nthPlatformHandle i < nthPlatformHandle j ∧
      nthPlatformHandle i ≠ nthPlatformHandle j) ∧
    (nthResponseHandle env conn req (freshPlatform ph) i <
        nthResponseHandle env conn req (freshPlatform ph) j ∧
      nthResponseHandle env conn req (freshPlatform ph) i ≠
        nthResponseHandle env conn req (freshPlatform ph) j) := by
  rw [nthPlatformHandle_eq, nthPlatformHandle_eq,
    nthResponseHandle_eq conn req ph i hsig,
    nthResponseHandle_eq conn req ph j hsig]
  have hlt := i64ofNat_strictMono hij hj
  exact ⟨⟨hlt, ne_of_lt hlt⟩, ⟨hlt, ne_of_lt hlt⟩⟩

/-- C4 witness: the first two platform handles and the first two response
handles on a fresh platform are increasing and distinct. -/
theorem handles_strictly_increasing_witness :
    (nthPlatformHandle 0 < nthPlatformHandle 1 ∧
      nthPlatformHandle 0 ≠ nthPlatformHandle 1) ∧
    (nthResponseHandle ⟨true, true⟩ 3 [1] (freshPlatform 7) 0 <
        nthResponseHandle ⟨true, true⟩ 3 [1] (freshPlatform 7) 1 ∧
      nthResponseHandle ⟨true, true⟩ 3 [1] (freshPlatform 7) 0 ≠
        nthResponseHandle ⟨true, true⟩ 3 [1] (freshPlatform 7) 1) :=
  handles_strictly_increasing 0 1 ⟨true, true⟩ 3 [1] 7 (by decide)
    (by norm_num) rfl

/-- C6 counterexample: with a JNI environment where the attach/marshalling
chain fails, `send_request` surfaces the error synchronously, but the entry
for the freshly allocated response handle 0 remains in the pending-request
table — contradicting the claim that no entry lingers. -/
theorem invocation_failure_entry_lingers :
    (sendRequestStart ⟨true, false⟩ 3 [1, 2, 3] (freshPlatform 5)).2 =
      StartResult.errAttach 0 ∧
    alookup 0
      (sendRequestStart ⟨true, false⟩ 3 [1, 2, 3]
        (freshPlatform 5)).1.map_futures = some 0 := by
  decide

/-- C6 (amended): if the outbound foreign invocation fails inside
`send_request`, the error is surfaced synchronously to the caller, but the
freshly inserted table entry for the allocated response handle remains in
the pending-request table; its channel's receiver is dropped on the early
return, so no caller can ever be affected by it. -/
theorem invocation_failure_surfaces_error (env : JniEnv) (conn : Int)
    (req : Bytes) (p : PState) (hsig : env.sigOk = true)
    (hatt : env.attachOk = false) :
    (sendRequestStart env conn req p).2 =
      .errAttach (i64ofNat p.atomic_handle) ∧
    alookup (i64ofNat p.atomic_handle)
      (sendRequestStart env conn req p).1.map_futures = some p.nextChan ∧
    alookup p.nextChan (sendRequestStart env conn req p).1.chans =
      some ⟨none, true, false⟩ := by
  refine ⟨?_, ?_, ?_⟩
  · simp [sendRequestStart, hsig, hatt]
  · simp only [sendRequestStart, hsig, hatt, if_true, Bool.false_eq_true,
      if_false, setChan]
    exact alookup_ainsert_self _ _ _
  · simp only [sendRequestStart, hsig, hatt, if_true, Bool.false_eq_true,
      if_false, setChan]
    exact alookup_ainsert_self _ _ _

/-- C6 amended witness: the concrete failed-attach run on a fresh platform,
showing the synchronous error, the lingering entry, and its dropped
receiver. -/
theorem invocation_failure_surfaces_error_witness :
    (sendRequestStart ⟨true, false⟩ 3 [1, 2, 3] (freshPlatform 5)).2 =
      StartResult.errAttach (i64ofNat 0) ∧
    alookup (i64ofNat 0)
      (sendRequestStart ⟨true, false⟩ 3 [1, 2, 3]
        (freshPlatform 5)).1.map_futures = some 0 ∧
    alookup 0
      (sendRequestStart ⟨true, false⟩ 3 [1, 2, 3]
        (freshPlatform 5)).1.chans = some ⟨none, true, false⟩ :=
  invocation_failure_surfaces_error ⟨true, false⟩ 3 [1, 2, 3]
    (freshPlatform 5) rfl rfl

/-- C7: an inbound completion (success or error) for a platform handle not
in the registry raises `BadHandleException` back to the foreign runtime and
leaves the registry — and hence every platform's state and every waiting
caller — unchanged. -/
theorem unknown_platform_raises_bad_handle (convertOk : Bool)
    (reg : Registry) (resp : Bytes) (code ph rh : Int)
    (hnone : alookup ph reg = none) :
    native_on_send_request_success convertOk reg resp ph rh =
      (reg, .badHandleException) ∧
    native_on_send_request_error reg code ph rh =
      (reg, .badHandleException) := by
  constructor
  · simp [native_on_send_request_success, hnone]
  · simp [native_on_send_request_error, hnone]

/-- C7 witness: the spec scenario — a completion for platform handle 999,
never registered, is rejected with `BadHandleException` and the registry is
untouched. -/
theorem unknown_platform_raises_bad_handle_witness :
    native_on_send_request_success true [(0, freshPlatform 0)] [1] 999 0 =
      ([(0, freshPlatform 0)], .badHandleException) ∧
    native_on_send_request_error [(0, freshPlatform 0)] 42 999 0 =
      ([(0, freshPlatform 0)], .badHandleException) :=
  unknown_platform_raises_bad_handle true [(0, freshPlatform 0)] [1] 42 999 0
    (by decide)

/-- C8 counterexample: on the inbound success entry point, when the platform
handle is registered but the response byte-array conversion fails, the code
calls `unwrap()` on the failed conversion and panics — contradicting the
claim that no code path on the inbound entry points panics. -/
theorem convert_failure_panics :
    (native_on_send_request_success false [(0, freshPlatform 0)] [] 0 0).2 =
      DispatchOutcome.panicked := by
  decide

/-- C8 (amended): inbound completion handling has exactly two panic paths —
`Runtime::new().unwrap()` on both `extern "system"` entry points, and the
byte-array-conversion `unwrap()` on the success entry point. Away from
them it never crashes: when runtime creation succeeds and (on the success
side) conversion succeeds, each entry point either raises the boundary
exception or delegates to the completion handler, which at worst fails the
one awaiting call; when runtime creation fails, either entry point panics
before touching any state. -/
theorem inbound_dispatch_resolves_or_raises (reg : Registry) (resp : Bytes)
    (code ph rh : Int) (convertOk : Bool) :
    ((Java_NativeRemoteAuthJavaPlatform_native_on_send_request_success true
          true reg resp ph rh).2 = DispatchOutcome.badHandleException ∨
      ∃ co,
        (Java_NativeRemoteAuthJavaPlatform_native_on_send_request_success
          true true reg resp ph rh).2 = DispatchOutcome.delegated co) ∧
    ((Java_NativeRemoteAuthJavaPlatform_native_on_send_request_error true reg
          code ph rh).2 = DispatchOutcome.badHandleException ∨
      ∃ co,
        (Java_NativeRemoteAuthJavaPlatform_native_on_send_request_error true
          reg code ph rh).2 = DispatchOutcome.delegated co) ∧
    Java_NativeRemoteAuthJavaPlatform_native_on_send_request_success false
        convertOk reg resp ph rh = (reg, DispatchOutcome.panicked) ∧
    Java_NativeRemoteAuthJavaPlatform_native_on_send_request_error false reg
        code ph rh = (reg, DispatchOutcome.panicked) := by
  refine ⟨?_, ?_, rfl, rfl⟩
  · cases hp : alookup ph reg with
    | none =>
      exact Or.inl (by
        simp [Java_NativeRemoteAuthJavaPlatform_native_on_send_request_success,
          native_on_send_request_success, hp])
    | some p =>
      refine Or.inr ⟨(onSendRequestSuccess p resp rh).2, ?_⟩
      simp [Java_NativeRemoteAuthJavaPlatform_native_on_send_request_success,
        native_on_send_request_success, hp]
  · cases hp : alookup ph reg with
    | none =>
      exact Or.inl (by
        simp [Java_NativeRemoteAuthJavaPlatform_native_on_send_request_error,
          native_on_send_request_error, hp])
    | some p =>
      refine Or.inr ⟨(onSendRequestError p code rh).2, ?_⟩
      simp [Java_NativeRemoteAuthJavaPlatform_native_on_send_request_error,
        native_on_send_request_error, hp]

/-- C10: when a completion's table entry is found but the receiver half of
the channel was already dropped (the caller abandoned the call),
`on_success` still removes the entry, the failed channel send is ignored
(no value is buffered), and the handler returns normally — the inbound
dispatch reports a delegated outcome, not a panic and not a boundary
exception. -/
theorem completion_after_abandonment_ignored (reg : Registry) (p : PState)
    (bytes : Bytes) (ph h : Int) (cid : Nat)
    (hreg : alookup ph reg = some p)
    (hm : alookup h p.map_futures = some cid)
    (hc : alookup cid p.chans = some ⟨none, true, false⟩) :
    (onSendRequestSuccess p bytes h).2 = .sendDropped ∧
    alookup h (onSendRequestSuccess p bytes h).1.map_futures = none ∧
    alookup cid (onSendRequestSuccess p bytes h).1.chans =
      some ⟨none, false, false⟩ ∧
    (native_on_send_request_success true reg bytes ph h).2 =
      DispatchOutcome.delegated CompletionOutcome.sendDropped := by
  have h1 : (onSendRequestSuccess p bytes h).2 = .sendDropped := by
    simp [onSendRequestSuccess, hm, hc, Chan.send]
  refine ⟨h1, onSuccess_removes hm, ?_, ?_⟩
  · simp only [onSendRequestSuccess, hm, hc, Chan.send, Chan.dropTx,
      setChan, Bool.false_eq_true, if_false]
    exact alookup_ainsert_self _ _ _
  · simp [native_on_send_request_success, hreg, h1]

/-- C10 witness: a platform whose single pending entry's receiver was
dropped; the late success completion is absorbed without effect beyond
entry removal. -/
theorem completion_after_abandonment_ignored_witness :
    (onSendRequestSuccess
      { platform_handle := 9, atomic_handle := 1, map_futures := [(0, 0)],
        chans := [(0, ⟨none, true, false⟩)], nextChan := 1 } [4] 0).2 =
      CompletionOutcome.sendDropped ∧
    alookup 0
      (onSendRequestSuccess
        { platform_handle := 9, atomic_handle := 1, map_futures := [(0, 0)],
          chans := [(0, ⟨none, true, false⟩)], nextChan := 1 }
        [4] 0).1.map_futures = none ∧
    alookup 0
      (onSendRequestSuccess
        { platform_handle := 9, atomic_handle := 1, map_futures := [(0, 0)],
          chans := [(0, ⟨none, true, false⟩)], nextChan := 1 }
        [4] 0).1.chans = some ⟨none, false, false⟩ ∧
    (native_on_send_request_success true
      [(9, { platform_handle := 9, atomic_handle := 1,
             map_futures := [(0, 0)], chans := [(0, ⟨none, true, false⟩)],
             nextChan := 1 })] [4] 9 0).2 =
      DispatchOutcome.delegated CompletionOutcome.sendDropped :=
  completion_after_abandonment_ignored _ _ [4] 9 0 0 (by decide) (by decide)
    (by decide)

end RemoteAuth
